import Mathlib

/-!
Verification development for the Style-Consistent Composition Pipeline of the
agentic-811ccc27 repository.

The session orchestrator lives in `src/app/components/ChatInterface.tsx`.  Its
pure helpers (`resolveProfile`, `buildAssistantCaption`, `summarizePrompt`) are
translated directly.  The stateful React component (`handleSend`,
`handleAdoptBase`, `handleClearBase`, `handleFileChange`, the style `select`)
is embedded as an explicit state machine over `SessionState`: the asynchronous
`handleSend` is split into a synchronous start phase (everything before the
`await`) and a settle phase (the `try`/`catch`/`finally` continuation), so
that other user events can interleave with an in-flight generation exactly as
in the browser.  `Date.now()` is modelled by an ambient clock `Nat → Nat`
indexed by a call counter that the execution threads through the steps.

The `visualEngine` module (`listStyleProfiles`, `pickStyleProfile`,
`renderGeminiCanvas`) is not part of the source tree; those pieces are
modelled from the spec, as marked on each definition.  The compositor
`renderGeminiCanvas` only matters through its settlement, so a settle step
carries the outcome (`Except Unit String`) as a parameter.
-/

/-- A style profile: immutable value with a unique `id` and a display
`label`.  The further visual parameters are opaque to the orchestrator and do
not influence any claim, so they are not represented. -/
structure StyleProfile where
  id : String
  label : String
deriving DecidableEq, Repr

instance : Inhabited StyleProfile := ⟨⟨"", ""⟩⟩

/-- Modelled from the spec: `listStyleProfiles` of the `visualEngine` module
is not under `src/`.  Spec 4.1 requires a finite, non-empty, stably ordered
catalog of immutable profiles; a fixed four-entry list realises it. -/
def listStyleProfiles : List StyleProfile :=
  [ ⟨"aurora-dream", "Aurora Dream"⟩
  , ⟨"noir-pulse", "Noir Pulse"⟩
  , ⟨"solar-botanic", "Solar Botanic"⟩
  , ⟨"pixel-voyage", "Pixel Voyage"⟩ ]

/-- Mirrors `const profileOptions = listStyleProfiles()` (ChatInterface.tsx
line 28). -/
def profileOptions : List StyleProfile := listStyleProfiles

/-- Modelled from the spec: a content hash over the full seed string, used by
the style selector.  Spec 4.2 requires the mapping to use the full seed and to
distribute across the catalog; a rolling polynomial hash satisfies this. -/
def seedHash (seed : String) : Nat :=
  seed.data.foldl (fun acc c => acc * 33 + c.toNat) 5381

/-- Modelled from the spec: `pickStyleProfile` of the `visualEngine` module is
not under `src/`.  Spec 4.2: deterministic, total on all seeds, a content hash
of the seed reduced modulo the catalog size. -/
def pickStyleProfile (seed : String) : StyleProfile :=
  profileOptions.get
    ⟨seedHash seed % profileOptions.length, Nat.mod_lt _ (by decide)⟩

/-- Mirrors `resolveProfile` (ChatInterface.tsx lines 30-32):
`profileOptions.find((profile) => profile.id === id) ?? profileOptions[0]`. -/
def resolveProfile (id : String) : StyleProfile :=
  (profileOptions.find? (fun profile => profile.id == id)).getD profileOptions.headI

/-- JavaScript `String.prototype.trim`: strip whitespace from both ends.
Written over the character list so that it evaluates inside the kernel. -/
def jsTrim (s : String) : String :=
  (((s.data.dropWhile Char.isWhitespace).reverse.dropWhile
      Char.isWhitespace).reverse).asString

/-- JavaScript `String.prototype.split` on a character class: split at every
character satisfying `p`, keeping empty segments.  Written over the character
list so that it evaluates inside the kernel. -/
def jsSplit (p : Char → Bool) (s : String) : List String :=
  (s.data.splitOnP p).map List.asString

/-- JavaScript `String.prototype.toLowerCase`, written over the character
list so that it evaluates inside the kernel. -/
def jsToLower (s : String) : String :=
  (s.data.map Char.toLower).asString

/-- Mirrors `summarizePrompt` (ChatInterface.tsx lines 364-377): split on the
delimiters `, . ; \n`, trim the parts, drop empties, keep the first two. -/
def summarizePrompt (prompt : String) : String :=
  let keywords :=
    (((jsSplit (fun c => c = ',' ∨ c = '.' ∨ c = ';' ∨ c = '\n') prompt).map
        jsTrim).filter (fun part => part ≠ "")).take 2
  match keywords with
  | [] => "os conceitos principais do pedido"
  | [k] => jsToLower k
  | k1 :: k2 :: _ => jsToLower k1 ++ " e " ++ jsToLower k2

/-- Mirrors `buildAssistantCaption` (ChatInterface.tsx lines 355-362). -/
def buildAssistantCaption (prompt : String) (profile : StyleProfile)
    (usedBase : Bool) : String :=
  let summary := summarizePrompt prompt
  let profileTone := profile.label
  if usedBase then
    "Transformei a base fornecida seguindo o estilo " ++ profileTone ++
      ". Destaquei " ++ summary ++ " e preservei a identidade estabelecida."
  else
    "Modelei uma composição original em " ++ profileTone ++ ", enfatizando " ++
      summary ++ ". Podemos iterar com novos ajustes."

/-- The fixed apology text of the failure fallback message
(ChatInterface.tsx line 130). -/
def apologyText : String :=
  "Não consegui gerar a composição agora. Tente novamente com outro pedido ou recarregue a página."

inductive Role where
  | user
  | assistant
deriving DecidableEq, Repr

/-- The optional `meta` record of a `ChatMessage` (ChatInterface.tsx lines
21-25).  `baseImageUsed` is itself optional in the source type. -/
structure MessageMeta where
  styleId : String
  iteration : Nat
  baseImageUsed : Option Bool
deriving DecidableEq, Repr

/-- Mirrors the `ChatMessage` type (ChatInterface.tsx lines 15-26). -/
structure ChatMessage where
  id : String
  role : Role
  text : String
  image : Option String
  createdAt : Nat
  meta : Option MessageMeta
deriving DecidableEq, Repr

/-- The data captured by the closure of `handleSend` between the start of a
generation and the settlement of `renderGeminiCanvas`: the trimmed prompt, the
resolved profile, this attempt's iteration number and the base image passed to
the compositor. -/
structure PendingGen where
  prompt : String
  styleProfile : StyleProfile
  nextIteration : Nat
  baseImageData : Option String
deriving DecidableEq, Repr

/-- The orchestrator state: the React state hooks of `ChatInterface`
(lines 35-52) plus `pending`, which represents the in-flight generation
closure (`pending.isSome` holds exactly between the two phases of one
`handleSend`). -/
structure SessionState where
  messages : List ChatMessage
  input : String
  isBusy : Bool
  styleId : String
  iteration : Nat
  baseImageData : Option String
  previewBaseName : Option String
  pending : Option PendingGen
deriving DecidableEq, Repr

/-- JavaScript `Boolean(x)` for `x : string | undefined`: `undefined` and the
empty string are falsy. -/
def jsTruthy : Option String → Bool
  | none => false
  | some s => s ≠ ""


/-- Start phase of `handleSend` (ChatInterface.tsx lines 87-108): everything
before the `await`.  `t1` and `t2` are the two `Date.now()` results used for
the user message id and timestamp.  Rejected submissions (empty trimmed
prompt, or busy) return the state unchanged. -/
def handleSendStart (t1 t2 : Nat) (s : SessionState) : SessionState :=
  let prompt := jsTrim s.input
  if prompt = "" ∨ s.isBusy then s
  else
    let firstProfile := pickStyleProfile (prompt ++ s.styleId)
    let styleId1 := if s.styleId = "" then firstProfile.id else s.styleId
    let userMessage : ChatMessage :=
      { id := "user-" ++ toString t1
      , role := .user
      , text := prompt
      , image := none
      , createdAt := t2
      , meta := none }
    let styleProfile := resolveProfile (if s.styleId = "" then firstProfile.id else s.styleId)
    let nextIteration := s.iteration + 1
    { s with
        isBusy := true
      , input := ""
      , styleId := styleId1
      , messages := s.messages ++ [userMessage]
      , iteration := nextIteration
      , pending := some
          { prompt := prompt
          , styleProfile := styleProfile
          , nextIteration := nextIteration
          , baseImageData := s.baseImageData } }

/-- Settle phase of `handleSend` (ChatInterface.tsx lines 110-140): the
continuation after `renderGeminiCanvas` settles.  `outcome` is `.ok image` for
a fulfilled call and `.error ()` for a rejected one.  `t3` and `t4` are the
two `Date.now()` results used for the assistant message.  When no generation
is in flight the step does nothing. -/
def handleSendSettle (t3 t4 : Nat) (outcome : Except Unit String)
    (s : SessionState) : SessionState :=
  match s.pending with
  | none => s
  | some p =>
    match outcome with
    | .ok image =>
      let usedBase := jsTruthy p.baseImageData
      let assistantText := buildAssistantCaption p.prompt p.styleProfile usedBase
      let assistantMessage : ChatMessage :=
        { id := "assistant-" ++ toString t3
        , role := .assistant
        , text := assistantText
        , image := some image
        , createdAt := t4
        , meta := some
            { styleId := p.styleProfile.id
            , iteration := p.nextIteration
            , baseImageUsed := some usedBase } }
      { s with
          messages := s.messages ++ [assistantMessage]
        , isBusy := false
        , pending := none }
    | .error _ =>
      let fallbackMessage : ChatMessage :=
        { id := "assistant-error-" ++ toString t3
        , role := .assistant
        , text := apologyText
        , image := none
        , createdAt := t4
        , meta := some
            { styleId := p.styleProfile.id
            , iteration := p.nextIteration
            , baseImageUsed := none } }
      { s with
          messages := s.messages ++ [fallbackMessage]
        , isBusy := false
        , pending := none }

/-- Mirrors `handleAdoptBase` (ChatInterface.tsx lines 153-157):
`if (!image) return` rejects `undefined` and the empty string (JS falsy). -/
def handleAdoptBase (image : Option String) (s : SessionState) : SessionState :=
  if jsTruthy image = false then s
  else
    { s with
        baseImageData := image
      , previewBaseName := some "Canvas anterior" }

/-- Mirrors `handleClearBase` (ChatInterface.tsx lines 159-165). -/
def handleClearBase (s : SessionState) : SessionState :=
  { s with baseImageData := none, previewBaseName := none }

/-- The initial assistant message (ChatInterface.tsx lines 36-45); `t0` is the
`Date.now()` of the initial render. -/
def initMessage (t0 : Nat) : ChatMessage :=
  { id := "init-assistant"
  , role := .assistant
  , text := "Oi! Sou o seu atelier visual estilo Gemini. Envie uma ideia e eu transformo em uma arte consistente. Você também pode carregar uma imagem para transformá-la."
  , image := none
  , createdAt := t0
  , meta := some
      { styleId := profileOptions.headI.id
      , iteration := 0
      , baseImageUsed := none } }

/-- The initial React state (ChatInterface.tsx lines 35-52): one greeting
message, the default prompt in the input box, not busy, style bound to the
first catalog profile, iteration 0, no base image. -/
def initialState (t0 : Nat) : SessionState :=
  { messages := [initMessage t0]
  , input := "Quero um pôster futurista de uma cidade submersa iluminada por neon."
  , isBusy := false
  , styleId := profileOptions.headI.id
  , iteration := 0
  , baseImageData := none
  , previewBaseName := none
  , pending := none }

/-- User-triggered events of the session.  `submitStart` and `settleGen` are
the two phases of one `handleSend`; `selectStyle` is the style `select`
element, whose options are exactly the catalog entries (lines 179-189);
`uploadBase` is a completed `handleFileChange` delivering the data URI and the
file name; `clearBase` and `adoptBase` are the corresponding handlers. -/
inductive UserAction where
  | submitStart
  | settleGen (outcome : Except Unit String)
  | selectStyle (k : Fin profileOptions.length)
  | setInput (text : String)
  | uploadBase (data : String) (name : String)
  | clearBase
  | adoptBase (image : Option String)

/-- Whether an action is an explicit style selection. -/
def UserAction.isSelectStyle : UserAction → Bool
  | .selectStyle _ => true
  | _ => false

/-- Whether an action is a submission start. -/
def UserAction.isSubmitStart : UserAction → Bool
  | .submitStart => true
  | _ => false

/-- One step of the session, threading the `Date.now()` call counter: a pair
of the next clock index and the session state.  Only an accepted submission
start and an actual settlement consume clock values (two each). -/
def stepW (clock : Nat → Nat) : Nat × SessionState → UserAction → Nat × SessionState
  | (tick, s), .submitStart =>
      if jsTrim s.input = "" ∨ s.isBusy then (tick, s)
      else (tick + 2, handleSendStart (clock tick) (clock (tick + 1)) s)
  | (tick, s), .settleGen outcome =>
      if s.pending.isSome then
        (tick + 2, handleSendSettle (clock tick) (clock (tick + 1)) outcome s)
      else (tick, s)
  | (tick, s), .selectStyle k => (tick, { s with styleId := (profileOptions.get k).id })
  | (tick, s), .setInput text => (tick, { s with input := text })
  | (tick, s), .uploadBase data name =>
      (tick, { s with baseImageData := some data, previewBaseName := some name })
  | (tick, s), .clearBase => (tick, handleClearBase s)
  | (tick, s), .adoptBase image => (tick, handleAdoptBase image s)

/-- Run a list of actions from the freshly rendered component.  Clock index 0
is consumed by the initial message; the steps continue from index 1. -/
def runW (clock : Nat → Nat) (acts : List UserAction) : Nat × SessionState :=
  acts.foldl (stepW clock) (1, initialState (clock 0))

/-- The `meta` of the most recently appended message, when any. -/
def lastMeta (s : SessionState) : Option MessageMeta :=
  s.messages.getLast?.bind (fun m => m.meta)

/-- The `meta.iteration` values of a message list, in log order. -/
def msgIterations (msgs : List ChatMessage) : List Nat :=
  (msgs.filterMap (fun m => m.meta)).map (fun mm => mm.iteration)

/-! ### Catalog facts -/

lemma profileOptions_ids :
    profileOptions.map StyleProfile.id =
      ["aurora-dream", "noir-pulse", "solar-botanic", "pixel-voyage"] := by
  decide

lemma mem_profileIds_ne_empty {x : String}
    (h : x ∈ profileOptions.map StyleProfile.id) : x ≠ "" := by
  rw [profileOptions_ids] at h
  simp only [List.mem_cons, List.not_mem_nil, or_false] at h
  rcases h with rfl | rfl | rfl | rfl <;> decide

lemma resolveProfile_id_of_mem {x : String}
    (h : x ∈ profileOptions.map StyleProfile.id) : (resolveProfile x).id = x := by
  rw [profileOptions_ids] at h
  simp only [List.mem_cons, List.not_mem_nil, or_false] at h
  rcases h with rfl | rfl | rfl | rfl <;> decide

/-! ### Basic step lemmas -/

/-- The user message appended by an accepted submission. -/
def mkUserMessage (t1 t2 : Nat) (prompt : String) : ChatMessage :=
  { id := "user-" ++ toString t1
  , role := .user
  , text := prompt
  , image := none
  , createdAt := t2
  , meta := none }

lemma handleSendStart_rejected (t1 t2 : Nat) (s : SessionState)
    (h : jsTrim s.input = "" ∨ s.isBusy = true) :
    handleSendStart t1 t2 s = s := by
  unfold handleSendStart
  rw [if_pos]
  rcases h with h | h
  · exact Or.inl h
  · exact Or.inr (by simp [h])

lemma handleSendStart_accepted (t1 t2 : Nat) (s : SessionState)
    (hp : jsTrim s.input ≠ "") (hb : s.isBusy = false) (hid : s.styleId ≠ "") :
    handleSendStart t1 t2 s =
      { s with
          isBusy := true
        , input := ""
        , messages := s.messages ++ [mkUserMessage t1 t2 (jsTrim s.input)]
        , iteration := s.iteration + 1
        , pending := some
            { prompt := jsTrim s.input
            , styleProfile := resolveProfile s.styleId
            , nextIteration := s.iteration + 1
            , baseImageData := s.baseImageData } } := by
  unfold handleSendStart
  rw [if_neg (by simp [hp, hb])]
  simp only [if_neg hid, mkUserMessage]

/-- The assistant message appended by a successful settlement. -/
def mkSuccessMessage (t3 t4 : Nat) (p : PendingGen) (image : String) : ChatMessage :=
  { id := "assistant-" ++ toString t3
  , role := .assistant
  , text := buildAssistantCaption p.prompt p.styleProfile (jsTruthy p.baseImageData)
  , image := some image
  , createdAt := t4
  , meta := some
      { styleId := p.styleProfile.id
      , iteration := p.nextIteration
      , baseImageUsed := some (jsTruthy p.baseImageData) } }

/-- The assistant message appended by a failed settlement. -/
def mkFailureMessage (t3 t4 : Nat) (p : PendingGen) : ChatMessage :=
  { id := "assistant-error-" ++ toString t3
  , role := .assistant
  , text := apologyText
  , image := none
  , createdAt := t4
  , meta := some
      { styleId := p.styleProfile.id
      , iteration := p.nextIteration
      , baseImageUsed := none } }

lemma handleSendSettle_none (t3 t4 : Nat) (o : Except Unit String)
    (s : SessionState) (h : s.pending = none) :
    handleSendSettle t3 t4 o s = s := by
  unfold handleSendSettle
  rw [h]

lemma handleSendSettle_ok (t3 t4 : Nat) (image : String) (s : SessionState)
    (p : PendingGen) (h : s.pending = some p) :
    handleSendSettle t3 t4 (.ok image) s =
      { s with
          messages := s.messages ++ [mkSuccessMessage t3 t4 p image]
        , isBusy := false
        , pending := none } := by
  unfold handleSendSettle
  rw [h]
  rfl

lemma handleSendSettle_error (t3 t4 : Nat) (e : Unit) (s : SessionState)
    (p : PendingGen) (h : s.pending = some p) :
    handleSendSettle t3 t4 (.error e) s =
      { s with
          messages := s.messages ++ [mkFailureMessage t3 t4 p]
        , isBusy := false
        , pending := none } := by
  unfold handleSendSettle
  rw [h]
  rfl

/-! ### The reachability invariant -/

lemma msgIterations_append (l1 l2 : List ChatMessage) :
    msgIterations (l1 ++ l2) = msgIterations l1 ++ msgIterations l2 := by
  simp [msgIterations, List.filterMap_append]

lemma chain'_le_append_singleton {l : List Nat} {n : Nat}
    (h : List.Chain' (· ≤ ·) l) (hle : ∀ i ∈ l, i ≤ n) :
    List.Chain' (· ≤ ·) (l ++ [n]) := by
  rw [List.chain'_append]
  refine ⟨h, List.chain'_singleton n, ?_⟩
  intro x hx y hy
  simp only [List.head?_cons, Option.mem_def, Option.some.injEq] at hy
  subst hy
  exact hle x (List.mem_of_mem_getLast? hx)

/-- The invariant maintained by every reachable session state: the sticky
style id is always a catalog id; the busy flag holds exactly while a
generation is in flight; the in-flight attempt number equals the iteration
counter; all logged iteration values are bounded by the counter and
non-decreasing along the log. -/
structure SessInv (s : SessionState) : Prop where
  styleMem : s.styleId ∈ profileOptions.map StyleProfile.id
  busyEq : s.isBusy = s.pending.isSome
  pendIter : ∀ p, s.pending = some p → p.nextIteration = s.iteration
  iterLe : ∀ i ∈ msgIterations s.messages, i ≤ s.iteration
  iterChain : List.Chain' (· ≤ ·) (msgIterations s.messages)

lemma sessInv_initial (t0 : Nat) : SessInv (initialState t0) := by
  refine ⟨?_, rfl, ?_, ?_, ?_⟩
  · simp only [initialState]
    decide
  · intro p hp
    simp [initialState] at hp
  · intro i hi
    simp [initialState, initMessage, msgIterations] at hi
    simp [hi]
  · simp [initialState, initMessage, msgIterations]

lemma sessInv_step (clock : Nat → Nat) (tick : Nat) (s : SessionState)
    (a : UserAction) (h : SessInv s) : SessInv (stepW clock (tick, s) a).2 := by
  obtain ⟨h1, h2, h3, h4, h5⟩ := h
  cases a with
  | submitStart =>
    by_cases hg : jsTrim s.input = "" ∨ s.isBusy
    · simp only [stepW]
      rw [if_pos hg]
      exact ⟨h1, h2, h3, h4, h5⟩
    · push_neg at hg
      obtain ⟨hp, hb⟩ := hg
      have hb' : s.isBusy = false := by
        revert hb; cases s.isBusy <;> simp
      simp only [stepW]
      rw [if_neg (by simp [hp, hb'])]
      rw [handleSendStart_accepted _ _ _ hp hb' (mem_profileIds_ne_empty h1)]
      refine ⟨h1, rfl, ?_, ?_, ?_⟩
      · intro p hp'
        simp only [Option.some.injEq] at hp'
        subst hp'
        rfl
      · intro i hi
        rw [msgIterations_append] at hi
        rcases List.mem_append.mp hi with hi | hi
        · exact Nat.le_succ_of_le (h4 i hi)
        · simp [msgIterations, mkUserMessage] at hi
      · rw [msgIterations_append]
        have : msgIterations [mkUserMessage (clock tick) (clock (tick + 1)) (jsTrim s.input)] = [] := by
          simp [msgIterations, mkUserMessage]
        rw [this, List.append_nil]
        exact h5
  | settleGen o =>
    cases hpend : s.pending with
    | none =>
      simp only [stepW, hpend, Option.isSome_none, Bool.false_eq_true, if_false]
      exact ⟨h1, h2, h3, h4, h5⟩
    | some p =>
      simp only [stepW, hpend, Option.isSome_some, if_true]
      have hiter := h3 p hpend
      cases o with
      | ok image =>
        rw [handleSendSettle_ok _ _ _ _ p hpend]
        refine ⟨h1, rfl, ?_, ?_, ?_⟩
        · intro q hq
          simp at hq
        · intro i hi
          rw [msgIterations_append] at hi
          rcases List.mem_append.mp hi with hi | hi
          · exact h4 i hi
          · simp [msgIterations, mkSuccessMessage] at hi
            rw [hi, hiter]
        · rw [msgIterations_append]
          have : msgIterations [mkSuccessMessage (clock tick) (clock (tick + 1)) p image]
              = [p.nextIteration] := by
            simp [msgIterations, mkSuccessMessage]
          rw [this, hiter]
          exact chain'_le_append_singleton h5 h4
      | error e =>
        rw [handleSendSettle_error _ _ _ _ p hpend]
        refine ⟨h1, rfl, ?_, ?_, ?_⟩
        · intro q hq
          simp at hq
        · intro i hi
          rw [msgIterations_append] at hi
          rcases List.mem_append.mp hi with hi | hi
          · exact h4 i hi
          · simp [msgIterations, mkFailureMessage] at hi
            rw [hi, hiter]
        · rw [msgIterations_append]
          have : msgIterations [mkFailureMessage (clock tick) (clock (tick + 1)) p]
              = [p.nextIteration] := by
            simp [msgIterations, mkFailureMessage]
          rw [this, hiter]
          exact chain'_le_append_singleton h5 h4
  | selectStyle k =>
    refine ⟨?_, h2, h3, h4, h5⟩
    exact List.mem_map_of_mem StyleProfile.id (List.get_mem profileOptions k.1 k.2)
  | setInput text => exact ⟨h1, h2, h3, h4, h5⟩
  | uploadBase data name => exact ⟨h1, h2, h3, h4, h5⟩
  | clearBase => exact ⟨h1, h2, h3, h4, h5⟩
  | adoptBase image =>
    simp only [stepW, handleAdoptBase]
    by_cases himg : jsTruthy image = false
    · rw [if_pos himg]
      exact ⟨h1, h2, h3, h4, h5⟩
    · rw [if_neg himg]
      exact ⟨h1, h2, h3, h4, h5⟩

lemma sessInv_foldl (clock : Nat → Nat) (acts : List UserAction) :
    ∀ w : Nat × SessionState, SessInv w.2 →
      SessInv (acts.foldl (stepW clock) w).2 := by
  induction acts with
  | nil => intro w h; exact h
  | cons a rest ih =>
    intro w h
    exact ih (stepW clock w a) (sessInv_step clock w.1 w.2 a h)

lemma sessInv_runW (clock : Nat → Nat) (acts : List UserAction) :
    SessInv (runW clock acts).2 :=
  sessInv_foldl clock acts (1, initialState (clock 0)) (sessInv_initial (clock 0))

/-! ### Decimal rendering of clock values, and id disjointness -/

/-- The decimal digit characters of `n`, most significant first. -/
def decDigits (n : Nat) : List Char :=
  if n < 10 then [Nat.digitChar n]
  else decDigits (n / 10) ++ [Nat.digitChar (n % 10)]
decreasing_by
  exact Nat.div_lt_self (by omega) (by decide)

lemma decDigits_lt (n : Nat) (h : n < 10) : decDigits n = [Nat.digitChar n] := by
  rw [decDigits]
  simp [h]

lemma decDigits_ge (n : Nat) (h : ¬ n < 10) :
    decDigits n = decDigits (n / 10) ++ [Nat.digitChar (n % 10)] := by
  conv_lhs => rw [decDigits]
  rw [if_neg h]

lemma toDigitsCore_eq_decDigits (fuel : Nat) :
    ∀ (n : Nat) (acc : List Char), n < fuel →
      Nat.toDigitsCore 10 fuel n acc = decDigits n ++ acc := by
  induction fuel with
  | zero => intro n acc h; omega
  | succ f ih =>
    intro n acc h
    by_cases h10 : n < 10
    · have hdiv : n / 10 = 0 := Nat.div_eq_of_lt h10
      have hmod : n % 10 = n := Nat.mod_eq_of_lt h10
      simp only [Nat.toDigitsCore, hdiv, if_pos]
      rw [decDigits_lt n h10, hmod]
      rfl
    · have hdiv : n / 10 ≠ 0 := by
        have : 0 < n / 10 := Nat.div_pos (by omega) (by decide)
        omega
      have hlt : n / 10 < f := by
        have : n / 10 < n := Nat.div_lt_self (by omega) (by decide)
        omega
      simp only [Nat.toDigitsCore, hdiv, if_neg, if_false]
      rw [ih (n / 10) (Nat.digitChar (n % 10) :: acc) hlt]
      rw [decDigits_ge n h10]
      simp [List.append_assoc]

lemma repr_eq_decDigits (n : Nat) : Nat.repr n = (decDigits n).asString := by
  show (Nat.toDigits 10 n).asString = _
  unfold Nat.toDigits
  rw [toDigitsCore_eq_decDigits (n + 1) n [] (Nat.lt_succ_self n), List.append_nil]

lemma toString_nat_eq (n : Nat) : (toString n : String) = (decDigits n).asString :=
  repr_eq_decDigits n

lemma digitChar_inj10 : ∀ a < 10, ∀ b < 10,
    Nat.digitChar a = Nat.digitChar b → a = b := by decide

lemma decDigits_ne_nil (n : Nat) : decDigits n ≠ [] := by
  by_cases h : n < 10
  · rw [decDigits_lt n h]
    simp
  · rw [decDigits_ge n h]
    simp

lemma append_singleton_inj {α : Type} {l1 l2 : List α} {a b : α}
    (h : l1 ++ [a] = l2 ++ [b]) : l1 = l2 ∧ a = b := by
  have h' := congrArg List.reverse h
  simp only [List.reverse_append, List.reverse_cons, List.reverse_nil,
    List.nil_append, List.singleton_append] at h'
  injection h' with h1 h2
  exact ⟨List.reverse_inj.mp h2, h1⟩

lemma decDigits_inj : ∀ a b : Nat, decDigits a = decDigits b → a = b := by
  intro a
  induction a using Nat.strong_induction_on with
  | _ a ih =>
    intro b h
    by_cases ha : a < 10 <;> by_cases hb : b < 10
    · rw [decDigits_lt a ha, decDigits_lt b hb] at h
      injection h with h1 _
      exact digitChar_inj10 a ha b hb h1
    · exfalso
      rw [decDigits_lt a ha, decDigits_ge b hb] at h
      have hlen := congrArg List.length h
      simp only [List.length_singleton, List.length_append] at hlen
      have hnil : (decDigits (b / 10)).length = 0 := by omega
      exact decDigits_ne_nil _ (List.eq_nil_of_length_eq_zero hnil)
    · exfalso
      rw [decDigits_ge a ha, decDigits_lt b hb] at h
      have hlen := congrArg List.length h
      simp only [List.length_singleton, List.length_append] at hlen
      have hnil : (decDigits (a / 10)).length = 0 := by omega
      exact decDigits_ne_nil _ (List.eq_nil_of_length_eq_zero hnil)
    · rw [decDigits_ge a ha, decDigits_ge b hb] at h
      obtain ⟨h1, h2⟩ := append_singleton_inj h
      have hmod : a % 10 = b % 10 :=
        digitChar_inj10 _ (Nat.mod_lt _ (by decide)) _ (Nat.mod_lt _ (by decide)) h2
      have hdivlt : a / 10 < a := Nat.div_lt_self (by omega) (by decide)
      have hdiv : a / 10 = b / 10 := ih (a / 10) hdivlt (b / 10) h1
      omega

lemma decDigits_all_digits : ∀ n : Nat, ∀ c ∈ decDigits n,
    ∃ d, d < 10 ∧ c = Nat.digitChar d := by
  intro n
  induction n using Nat.strong_induction_on with
  | _ n ih =>
    intro c hc
    by_cases hn : n < 10
    · rw [decDigits_lt n hn] at hc
      simp at hc
      exact ⟨n, hn, hc⟩
    · rw [decDigits_ge n hn] at hc
      rcases List.mem_append.mp hc with hc | hc
      · exact ih (n / 10) (Nat.div_lt_self (by omega) (by decide)) c hc
      · simp at hc
        exact ⟨n % 10, Nat.mod_lt _ (by decide), hc⟩

lemma natToString_inj {a b : Nat} (h : (toString a : String) = toString b) : a = b := by
  rw [toString_nat_eq, toString_nat_eq] at h
  exact decDigits_inj a b (congrArg String.data h)

lemma data_append (s t : String) : (s ++ t).data = s.data ++ t.data := by
  cases s
  cases t
  rfl

lemma string_ext {s t : String} (h : s.data = t.data) : s = t := by
  cases s
  cases t
  exact congrArg String.mk h

lemma tag_inj_same (tag : String) {a b : Nat}
    (h : tag ++ toString a = tag ++ toString b) : a = b := by
  have hd := congrArg String.data h
  rw [data_append, data_append] at hd
  exact natToString_inj (string_ext (List.append_cancel_left hd))

lemma user_ne_assistant (a b : Nat) :
    ("user-" ++ toString a) ≠ ("assistant-" ++ toString b) := by
  intro h
  have hd := congrArg String.data h
  rw [data_append, data_append,
    (by decide : "user-".data = ['u', 's', 'e', 'r', '-']),
    (by decide : "assistant-".data = ['a', 's', 's', 'i', 's', 't', 'a', 'n', 't', '-'])] at hd
  injection hd with h1 _
  exact absurd h1 (by decide)

lemma user_ne_assistantError (a b : Nat) :
    ("user-" ++ toString a) ≠ ("assistant-error-" ++ toString b) := by
  intro h
  have hd := congrArg String.data h
  rw [data_append, data_append,
    (by decide : "user-".data = ['u', 's', 'e', 'r', '-']),
    (by decide : "assistant-error-".data =
      ['a', 's', 's', 'i', 's', 't', 'a', 'n', 't', '-', 'e', 'r', 'r', 'o', 'r', '-'])] at hd
  injection hd with h1 _
  exact absurd h1 (by decide)

lemma digitChar_ne_e : ∀ d < 10, 'e' ≠ Nat.digitChar d := by decide

lemma assistant_ne_assistantError (a b : Nat) :
    ("assistant-" ++ toString a) ≠ ("assistant-error-" ++ toString b) := by
  intro h
  have hd := congrArg String.data h
  rw [data_append, data_append,
    (by decide : "assistant-error-".data = "assistant-".data ++ "error-".data),
    List.append_assoc] at hd
  have hx : (toString a).data = "error-".data ++ (toString b).data :=
    List.append_cancel_left hd
  have he : 'e' ∈ (toString a).data := by
    rw [hx, (by decide : "error-".data = ['e', 'r', 'r', 'o', 'r', '-'])]
    exact List.mem_cons_self _ _
  rw [toString_nat_eq] at he
  have he' : 'e' ∈ decDigits a := he
  obtain ⟨d, hd10, hdc⟩ := decDigits_all_digits a 'e' he'
  exact digitChar_ne_e d hd10 hdc

lemma init_ne_user (a : Nat) : "init-assistant" ≠ "user-" ++ toString a := by
  intro h
  have hd := congrArg String.data h
  rw [data_append,
    (by decide : "init-assistant".data =
      ['i', 'n', 'i', 't', '-', 'a', 's', 's', 'i', 's', 't', 'a', 'n', 't']),
    (by decide : "user-".data = ['u', 's', 'e', 'r', '-'])] at hd
  injection hd with h1 _
  exact absurd h1 (by decide)

lemma init_ne_assistant (a : Nat) : "init-assistant" ≠ "assistant-" ++ toString a := by
  intro h
  have hd := congrArg String.data h
  rw [data_append,
    (by decide : "init-assistant".data =
      ['i', 'n', 'i', 't', '-', 'a', 's', 's', 'i', 's', 't', 'a', 'n', 't']),
    (by decide : "assistant-".data = ['a', 's', 's', 'i', 's', 't', 'a', 'n', 't', '-'])] at hd
  injection hd with h1 _
  exact absurd h1 (by decide)

lemma init_ne_assistantError (a : Nat) :
    "init-assistant" ≠ "assistant-error-" ++ toString a := by
  intro h
  have hd := congrArg String.data h
  rw [data_append,
    (by decide : "init-assistant".data =
      ['i', 'n', 'i', 't', '-', 'a', 's', 's', 'i', 's', 't', 'a', 'n', 't']),
    (by decide : "assistant-error-".data =
      ['a', 's', 's', 'i', 's', 't', 'a', 'n', 't', '-', 'e', 'r', 'r', 'o', 'r', '-'])] at hd
  injection hd with h1 _
  exact absurd h1 (by decide)

/-! ### Id uniqueness invariant under a strictly increasing clock -/

lemma handleSendStart_messages (t1 t2 : Nat) (s : SessionState)
    (hp : jsTrim s.input ≠ "") (hb : s.isBusy = false) :
    (handleSendStart t1 t2 s).messages =
      s.messages ++ [mkUserMessage t1 t2 (jsTrim s.input)] := by
  unfold handleSendStart
  rw [if_neg (by simp [hp, hb])]
  rfl

/-- Shape of a message id in a reachable log: either the fixed initial id or
one of the three role tags followed by the decimal rendering of the clock
value at some already consumed call index. -/
def IdShape (clock : Nat → Nat) (tick : Nat) (m : ChatMessage) : Prop :=
  m.id = "init-assistant" ∨
    ∃ k, k < tick ∧
      (m.id = "user-" ++ toString (clock k) ∨
        m.id = "assistant-" ++ toString (clock k) ∨
        m.id = "assistant-error-" ++ toString (clock k))

lemma IdShape.mono {clock : Nat → Nat} {tick tick' : Nat} {m : ChatMessage}
    (hle : tick ≤ tick') (h : IdShape clock tick m) : IdShape clock tick' m := by
  rcases h with h | ⟨k, hk, hcase⟩
  · exact Or.inl h
  · exact Or.inr ⟨k, Nat.lt_of_lt_of_le hk hle, hcase⟩

/-- A message whose id was stamped before call index `tick` differs from any
id freshly stamped with clock value `clock tick`. -/
lemma shape_ne_fresh {clock : Nat → Nat} (hinj : Function.Injective clock)
    {tick : Nat} {m : ChatMessage} (hshape : IdShape clock tick m)
    (nid : String)
    (hnew : nid = "user-" ++ toString (clock tick) ∨
      nid = "assistant-" ++ toString (clock tick) ∨
      nid = "assistant-error-" ++ toString (clock tick)) :
    m.id ≠ nid := by
  rcases hshape with hinit | ⟨k, hk, hcase⟩
  · rw [hinit]
    rcases hnew with rfl | rfl | rfl
    · exact init_ne_user _
    · exact init_ne_assistant _
    · exact init_ne_assistantError _
  · have hck : clock k ≠ clock tick := by
      intro hc
      have := hinj hc
      omega
    rcases hcase with hm | hm | hm <;> rw [hm] <;> rcases hnew with rfl | rfl | rfl
    · exact fun hc => hck (tag_inj_same "user-" hc)
    · exact user_ne_assistant _ _
    · exact user_ne_assistantError _ _
    · exact fun hc => user_ne_assistant _ _ hc.symm
    · exact fun hc => hck (tag_inj_same "assistant-" hc)
    · exact assistant_ne_assistantError _ _
    · exact fun hc => user_ne_assistantError _ _ hc.symm
    · exact fun hc => assistant_ne_assistantError _ _ hc.symm
    · exact fun hc => hck (tag_inj_same "assistant-error-" hc)

/-- Invariant for id uniqueness: every logged id has the stamped shape with a
consumed call index, and all ids are pairwise distinct. -/
structure IdsInv (clock : Nat → Nat) (w : Nat × SessionState) : Prop where
  shapes : ∀ m ∈ w.2.messages, IdShape clock w.1 m
  distinct : w.2.messages.Pairwise (fun m1 m2 => m1.id ≠ m2.id)

lemma idsInv_initial (clock : Nat → Nat) :
    IdsInv clock (1, initialState (clock 0)) := by
  refine ⟨?_, ?_⟩
  · intro m hm
    simp only [initialState, List.mem_singleton] at hm
    subst hm
    exact Or.inl rfl
  · simp [initialState]

lemma idsInv_append (clock : Nat → Nat) (hinj : Function.Injective clock)
    {tick : Nat} {msgs : List ChatMessage} {m : ChatMessage}
    (hshapes : ∀ x ∈ msgs, IdShape clock tick x)
    (hdist : msgs.Pairwise (fun m1 m2 => m1.id ≠ m2.id))
    (hnew : m.id = "user-" ++ toString (clock tick) ∨
      m.id = "assistant-" ++ toString (clock tick) ∨
      m.id = "assistant-error-" ++ toString (clock tick)) :
    (∀ x ∈ msgs ++ [m], IdShape clock (tick + 2) x) ∧
      (msgs ++ [m]).Pairwise (fun m1 m2 => m1.id ≠ m2.id) := by
  constructor
  · intro x hx
    rcases List.mem_append.mp hx with hx | hx
    · exact (hshapes x hx).mono (Nat.le_add_right tick 2)
    · rw [List.mem_singleton] at hx
      subst hx
      exact Or.inr ⟨tick, by omega, hnew⟩
  · rw [List.pairwise_append]
    refine ⟨hdist, List.pairwise_singleton _ _, ?_⟩
    intro a ha b hb
    rw [List.mem_singleton] at hb
    subst hb
    exact shape_ne_fresh hinj (hshapes a ha) b.id hnew

lemma idsInv_step (clock : Nat → Nat) (hinj : Function.Injective clock)
    (w : Nat × SessionState) (a : UserAction) (h : IdsInv clock w) :
    IdsInv clock (stepW clock w a) := by
  obtain ⟨tick, s⟩ := w
  obtain ⟨hshapes, hdist⟩ := h
  cases a with
  | submitStart =>
    by_cases hg : jsTrim s.input = "" ∨ s.isBusy
    · simp only [stepW]
      rw [if_pos hg]
      exact ⟨hshapes, hdist⟩
    · push_neg at hg
      have hb' : s.isBusy = false := by
        have hx := hg.2
        revert hx
        cases s.isBusy <;> simp
      simp only [stepW]
      rw [if_neg (by simp [hg.1, hb'])]
      have hmsgs := handleSendStart_messages (clock tick) (clock (tick + 1)) s hg.1 hb'
      have happ := idsInv_append clock hinj hshapes hdist
        (m := mkUserMessage (clock tick) (clock (tick + 1)) (jsTrim s.input))
        (Or.inl rfl)
      refine ⟨?_, ?_⟩
      · intro m hm
        rw [hmsgs] at hm
        exact happ.1 m hm
      · rw [hmsgs]
        exact happ.2
  | settleGen o =>
    cases hpend : s.pending with
    | none =>
      simp only [stepW, hpend, Option.isSome_none, Bool.false_eq_true, if_false]
      exact ⟨hshapes, hdist⟩
    | some p =>
      simp only [stepW, hpend, Option.isSome_some, if_true]
      cases o with
      | ok image =>
        rw [handleSendSettle_ok _ _ _ _ p hpend]
        have happ := idsInv_append clock hinj hshapes hdist
          (m := mkSuccessMessage (clock tick) (clock (tick + 1)) p image)
          (Or.inr (Or.inl rfl))
        exact ⟨happ.1, happ.2⟩
      | error e =>
        rw [handleSendSettle_error _ _ _ _ p hpend]
        have happ := idsInv_append clock hinj hshapes hdist
          (m := mkFailureMessage (clock tick) (clock (tick + 1)) p)
          (Or.inr (Or.inr rfl))
        exact ⟨happ.1, happ.2⟩
  | selectStyle k => exact ⟨hshapes, hdist⟩
  | setInput text => exact ⟨hshapes, hdist⟩
  | uploadBase data name => exact ⟨hshapes, hdist⟩
  | clearBase => exact ⟨hshapes, hdist⟩
  | adoptBase image =>
    simp only [stepW, handleAdoptBase]
    by_cases himg : jsTruthy image = false
    · rw [if_pos himg]
      exact ⟨hshapes, hdist⟩
    · rw [if_neg himg]
      exact ⟨hshapes, hdist⟩

lemma idsInv_foldl (clock : Nat → Nat) (hinj : Function.Injective clock)
    (acts : List UserAction) :
    ∀ w : Nat × SessionState, IdsInv clock w →
      IdsInv clock (acts.foldl (stepW clock) w) := by
  induction acts with
  | nil => intro w h; exact h
  | cons a rest ih =>
    intro w h
    exact ih (stepW clock w a) (idsInv_step clock hinj w a h)

lemma idsInv_runW (clock : Nat → Nat) (hinj : Function.Injective clock)
    (acts : List UserAction) : IdsInv clock (runW clock acts) :=
  idsInv_foldl clock hinj acts (1, initialState (clock 0)) (idsInv_initial clock)

/-! ### Projection and round lemmas used by the claim theorems -/

lemma handleSendStart_pending (t1 t2 : Nat) (s : SessionState)
    (hp : jsTrim s.input ≠ "") (hb : s.isBusy = false) :
    (handleSendStart t1 t2 s).pending = some
      { prompt := jsTrim s.input
      , styleProfile := resolveProfile
          (if s.styleId = "" then (pickStyleProfile (jsTrim s.input ++ s.styleId)).id
           else s.styleId)
      , nextIteration := s.iteration + 1
      , baseImageData := s.baseImageData } := by
  unfold handleSendStart
  rw [if_neg (by simp [hp, hb])]

lemma handleSendStart_styleId (t1 t2 : Nat) (s : SessionState) (hid : s.styleId ≠ "") :
    (handleSendStart t1 t2 s).styleId = s.styleId := by
  unfold handleSendStart
  by_cases hg : jsTrim s.input = "" ∨ s.isBusy
  · rw [if_pos hg]
  · rw [if_neg hg]
    exact if_neg hid

lemma handleSendSettle_styleId (t3 t4 : Nat) (o : Except Unit String)
    (s : SessionState) : (handleSendSettle t3 t4 o s).styleId = s.styleId := by
  cases hp : s.pending with
  | none => rw [handleSendSettle_none _ _ _ _ hp]
  | some p =>
    cases o with
    | ok img => rw [handleSendSettle_ok _ _ _ _ p hp]
    | error e => rw [handleSendSettle_error _ _ _ _ p hp]

lemma getLast?_append_singleton {α : Type} (l : List α) (a : α) :
    (l ++ [a]).getLast? = some a := by
  simp

lemma round_lastMeta_ok (t1 t2 t3 t4 : Nat) (img : String) (s : SessionState)
    (hp : jsTrim s.input ≠ "") (hb : s.isBusy = false) :
    lastMeta (handleSendSettle t3 t4 (.ok img) (handleSendStart t1 t2 s)) = some
      { styleId := (resolveProfile
          (if s.styleId = "" then (pickStyleProfile (jsTrim s.input ++ s.styleId)).id
           else s.styleId)).id
      , iteration := s.iteration + 1
      , baseImageUsed := some (jsTruthy s.baseImageData) } := by
  rw [handleSendSettle_ok _ _ _ _ _ (handleSendStart_pending t1 t2 s hp hb)]
  simp only [lastMeta, getLast?_append_singleton, mkSuccessMessage]
  rfl

lemma round_lastMeta_error (t1 t2 t3 t4 : Nat) (e : Unit) (s : SessionState)
    (hp : jsTrim s.input ≠ "") (hb : s.isBusy = false) :
    lastMeta (handleSendSettle t3 t4 (.error e) (handleSendStart t1 t2 s)) = some
      { styleId := (resolveProfile
          (if s.styleId = "" then (pickStyleProfile (jsTrim s.input ++ s.styleId)).id
           else s.styleId)).id
      , iteration := s.iteration + 1
      , baseImageUsed := none } := by
  rw [handleSendSettle_error _ _ _ _ _ (handleSendStart_pending t1 t2 s hp hb)]
  simp only [lastMeta, getLast?_append_singleton, mkFailureMessage]
  rfl

lemma round_lastMeta_styleId (t1 t2 t3 t4 : Nat) (o : Except Unit String)
    (s : SessionState) (hp : jsTrim s.input ≠ "") (hb : s.isBusy = false)
    (hid : s.styleId ≠ "") :
    (lastMeta (handleSendSettle t3 t4 o (handleSendStart t1 t2 s))).map
        (fun mm => mm.styleId) = some (resolveProfile s.styleId).id := by
  cases o with
  | ok img =>
    rw [round_lastMeta_ok t1 t2 t3 t4 img s hp hb]
    simp only [if_neg hid]
    rfl
  | error e =>
    rw [round_lastMeta_error t1 t2 t3 t4 e s hp hb]
    simp only [if_neg hid]
    rfl

lemma jsTruthy_eq_isSome {o : Option String} (h : o ≠ some "") :
    jsTruthy o = o.isSome := by
  cases o with
  | none => rfl
  | some s =>
    have hs : s ≠ "" := fun he => h (by rw [he])
    simp [jsTruthy, hs]

lemma stepW_styleId (clock : Nat → Nat) (w : Nat × SessionState) (a : UserAction)
    (hsel : a.isSelectStyle = false) (hid : w.2.styleId ≠ "") :
    (stepW clock w a).2.styleId = w.2.styleId := by
  obtain ⟨tick, s⟩ := w
  cases a with
  | submitStart =>
    by_cases hg : jsTrim s.input = "" ∨ s.isBusy
    · simp only [stepW]
      rw [if_pos hg]
    · simp only [stepW]
      rw [if_neg hg]
      exact handleSendStart_styleId _ _ _ hid
  | settleGen o =>
    cases hb : s.pending.isSome with
    | true =>
      simp only [stepW, hb, if_true]
      exact handleSendSettle_styleId _ _ _ _
    | false =>
      simp only [stepW, hb, Bool.false_eq_true, if_false]
  | selectStyle k => simp [UserAction.isSelectStyle] at hsel
  | setInput text => rfl
  | uploadBase data name => rfl
  | clearBase => rfl
  | adoptBase image =>
    simp only [stepW, handleAdoptBase]
    by_cases himg : jsTruthy image = false
    · rw [if_pos himg]
    · rw [if_neg himg]

lemma foldl_styleId (clock : Nat → Nat) (acts : List UserAction)
    (hsel : ∀ a ∈ acts, a.isSelectStyle = false) :
    ∀ w : Nat × SessionState, w.2.styleId ≠ "" →
      (acts.foldl (stepW clock) w).2.styleId = w.2.styleId := by
  induction acts with
  | nil => intro w h; rfl
  | cons a rest ih =>
    intro w h
    have ha := hsel a (List.mem_cons_self a rest)
    have hstep := stepW_styleId clock w a ha h
    rw [List.foldl_cons]
    rw [ih (fun x hx => hsel x (List.mem_cons_of_mem a hx)) (stepW clock w a)
      (by rw [hstep]; exact h)]
    exact hstep

lemma stepW_messages_append (clock : Nat → Nat) (w : Nat × SessionState)
    (a : UserAction) :
    ∃ tail : List ChatMessage,
      (stepW clock w a).2.messages = w.2.messages ++ tail := by
  obtain ⟨tick, s⟩ := w
  cases a with
  | submitStart =>
    by_cases hg : jsTrim s.input = "" ∨ s.isBusy
    · refine ⟨[], ?_⟩
      simp only [stepW]
      rw [if_pos hg, List.append_nil]
    · push_neg at hg
      have hb' : s.isBusy = false := by
        have hx := hg.2
        revert hx
        cases s.isBusy <;> simp
      refine ⟨[mkUserMessage (clock tick) (clock (tick + 1)) (jsTrim s.input)], ?_⟩
      simp only [stepW]
      rw [if_neg (by simp [hg.1, hb'])]
      exact handleSendStart_messages _ _ _ hg.1 hb'
  | settleGen o =>
    cases hpend : s.pending with
    | none =>
      refine ⟨[], ?_⟩
      simp only [stepW, hpend, Option.isSome_none, Bool.false_eq_true, if_false,
        List.append_nil]
    | some p =>
      cases o with
      | ok img =>
        refine ⟨[mkSuccessMessage (clock tick) (clock (tick + 1)) p img], ?_⟩
        simp only [stepW, hpend, Option.isSome_some, if_true]
        rw [handleSendSettle_ok _ _ _ _ p hpend]
      | error e =>
        refine ⟨[mkFailureMessage (clock tick) (clock (tick + 1)) p], ?_⟩
        simp only [stepW, hpend, Option.isSome_some, if_true]
        rw [handleSendSettle_error _ _ _ _ p hpend]
  | selectStyle k => exact ⟨[], (List.append_nil s.messages).symm⟩
  | setInput text => exact ⟨[], (List.append_nil s.messages).symm⟩
  | uploadBase data name => exact ⟨[], (List.append_nil s.messages).symm⟩
  | clearBase => exact ⟨[], (List.append_nil s.messages).symm⟩
  | adoptBase image =>
    refine ⟨[], ?_⟩
    rw [List.append_nil]
    simp only [stepW, handleAdoptBase]
    by_cases himg : jsTruthy image = false
    · rw [if_pos himg]
    · rw [if_neg himg]



lemma handleSendSettle_iteration (t3 t4 : Nat) (o : Except Unit String)
    (s : SessionState) : (handleSendSettle t3 t4 o s).iteration = s.iteration := by
  cases hp : s.pending with
  | none => rw [handleSendSettle_none _ _ _ _ hp]
  | some p =>
    cases o with
    | ok img => rw [handleSendSettle_ok _ _ _ _ p hp]
    | error e => rw [handleSendSettle_error _ _ _ _ p hp]

lemma round_stepW (clock : Nat → Nat) (tick : Nat) (s : SessionState)
    (o : Except Unit String) (hp : jsTrim s.input ≠ "") (hb : s.isBusy = false) :
    stepW clock (stepW clock (tick, s) .submitStart) (.settleGen o) =
      (tick + 4, handleSendSettle (clock (tick + 2)) (clock (tick + 3)) o
        (handleSendStart (clock tick) (clock (tick + 1)) s)) := by
  have h1 : stepW clock (tick, s) .submitStart =
      (tick + 2, handleSendStart (clock tick) (clock (tick + 1)) s) := by
    simp only [stepW]
    rw [if_neg (by simp [hp, hb])]
  rw [h1]
  have hpend : (handleSendStart (clock tick) (clock (tick + 1)) s).pending.isSome = true := by
    rw [handleSendStart_pending _ _ _ hp hb]
    rfl
  simp only [stepW, hpend, if_true]

/-! ### Claim theorems -/

/-- Claim C5: a submission whose prompt is empty after trimming, or one made
while a generation is in flight, is rejected synchronously with no change to
any session state: the whole state record, hence the message log, the
iteration counter, the busy flag, the active style and the active base image,
is returned unchanged, and no clock value is consumed. -/
theorem c5_invalid_submission_rejected (t1 t2 : Nat) (s : SessionState)
    (h : jsTrim s.input = "" ∨ s.isBusy = true) :
    handleSendStart t1 t2 s = s ∧
      ∀ (clock : Nat → Nat) (tick : Nat),
        stepW clock (tick, s) UserAction.submitStart = (tick, s) := by
  constructor
  · exact handleSendStart_rejected t1 t2 s h
  · intro clock tick
    simp only [stepW]
    rw [if_pos ?_]
    rcases h with h | h
    · exact Or.inl h
    · exact Or.inr (by simp [h])

/-- Witness for claim C5 at a concrete whitespace-only prompt. -/
theorem c5_witness :
    handleSendStart 5 6 { initialState 0 with input := "   " } =
      { initialState 0 with input := "   " } :=
  (c5_invalid_submission_rejected 5 6 _ (Or.inl (by decide))).1

/-- Claim C2: the busy flag equals the presence of an in-flight generation in
every reachable state; an accepted submission raises it; the settlement of
the in-flight call, successful or failed, always lowers it and clears the
in-flight slot; and a submission made while busy leaves the state untouched. -/
theorem c2_single_flight :
    (∀ (clock : Nat → Nat) (acts : List UserAction),
      (runW clock acts).2.isBusy = (runW clock acts).2.pending.isSome) ∧
    (∀ (t1 t2 : Nat) (s : SessionState), jsTrim s.input ≠ "" → s.isBusy = false →
      (handleSendStart t1 t2 s).isBusy = true) ∧
    (∀ (t3 t4 : Nat) (o : Except Unit String) (s : SessionState) (p : PendingGen),
      s.pending = some p →
      (handleSendSettle t3 t4 o s).isBusy = false ∧
        (handleSendSettle t3 t4 o s).pending = none) ∧
    (∀ (t1 t2 : Nat) (s : SessionState), s.isBusy = true →
      handleSendStart t1 t2 s = s) := by
  refine ⟨?_, ?_, ?_, ?_⟩
  · intro clock acts
    exact (sessInv_runW clock acts).busyEq
  · intro t1 t2 s hp hb
    unfold handleSendStart
    rw [if_neg (by simp [hp, hb])]
  · intro t3 t4 o s p hp
    cases o with
    | ok img => rw [handleSendSettle_ok _ _ _ _ p hp]; exact ⟨rfl, rfl⟩
    | error e => rw [handleSendSettle_error _ _ _ _ p hp]; exact ⟨rfl, rfl⟩
  · intro t1 t2 s hb
    exact handleSendStart_rejected t1 t2 s (Or.inr hb)

/-- Witness for claim C2 on a concrete accepted submission and settlement. -/
theorem c2_witness :
    (handleSendStart 1 2 (initialState 0)).isBusy = true ∧
    (handleSendSettle 3 4 (Except.ok "img")
      (handleSendStart 1 2 (initialState 0))).isBusy = false := by
  refine ⟨c2_single_flight.2.1 1 2 (initialState 0) (by decide) (by decide), ?_⟩
  exact (c2_single_flight.2.2.1 3 4 (Except.ok "img")
    (handleSendStart 1 2 (initialState 0))
    { prompt := "Quero um pôster futurista de uma cidade submersa iluminada por neon."
    , styleProfile := { id := "aurora-dream", label := "Aurora Dream" }
    , nextIteration := 1
    , baseImageData := none } (by decide)).1

/-- Claim C3: the iteration counter starts at 0; an accepted submission
increments it by exactly 1; a rejected submission and every other step leave
it unchanged; the assistant message appended by a settlement carries the
counter value of its attempt; and the iteration values across the message log
are non-decreasing in every reachable state. -/
theorem c3_iteration_monotone :
    (∀ t0 : Nat, (initialState t0).iteration = 0) ∧
    (∀ (t1 t2 : Nat) (s : SessionState), jsTrim s.input ≠ "" → s.isBusy = false →
      (handleSendStart t1 t2 s).iteration = s.iteration + 1) ∧
    (∀ (t1 t2 : Nat) (s : SessionState), jsTrim s.input = "" ∨ s.isBusy = true →
      (handleSendStart t1 t2 s).iteration = s.iteration) ∧
    (∀ (clock : Nat → Nat) (w : Nat × SessionState) (a : UserAction),
      a.isSubmitStart = false →
      (stepW clock w a).2.iteration = w.2.iteration) ∧
    (∀ (clock : Nat → Nat) (acts : List UserAction) (t3 t4 : Nat)
      (o : Except Unit String) (p : PendingGen),
      (runW clock acts).2.pending = some p →
      (lastMeta (handleSendSettle t3 t4 o (runW clock acts).2)).map
        (fun mm => mm.iteration) = some (runW clock acts).2.iteration) ∧
    (∀ (clock : Nat → Nat) (acts : List UserAction),
      List.Chain' (· ≤ ·) (msgIterations (runW clock acts).2.messages)) := by
  refine ⟨fun t0 => rfl, ?_, ?_, ?_, ?_, ?_⟩
  · intro t1 t2 s hp hb
    unfold handleSendStart
    rw [if_neg (by simp [hp, hb])]
  · intro t1 t2 s h
    rw [handleSendStart_rejected t1 t2 s h]
  · intro clock w a ha
    obtain ⟨tick, s⟩ := w
    cases a with
    | submitStart => simp [UserAction.isSubmitStart] at ha
    | settleGen o =>
      cases hb : s.pending.isSome with
      | true =>
        simp only [stepW, hb, if_true]
        exact handleSendSettle_iteration _ _ _ _
      | false =>
        simp only [stepW, hb, Bool.false_eq_true, if_false]
    | selectStyle k => rfl
    | setInput text => rfl
    | uploadBase data name => rfl
    | clearBase => rfl
    | adoptBase image =>
      simp only [stepW, handleAdoptBase]
      by_cases himg : jsTruthy image = false
      · rw [if_pos himg]
      · rw [if_neg himg]
  · intro clock acts t3 t4 o p hp
    have hit := (sessInv_runW clock acts).pendIter p hp
    cases o with
    | ok img =>
      rw [handleSendSettle_ok _ _ _ _ p hp]
      simp only [lastMeta, getLast?_append_singleton]
      show some p.nextIteration = some (runW clock acts).2.iteration
      rw [hit]
    | error e =>
      rw [handleSendSettle_error _ _ _ _ p hp]
      simp only [lastMeta, getLast?_append_singleton]
      show some p.nextIteration = some (runW clock acts).2.iteration
      rw [hit]
  · intro clock acts
    exact (sessInv_runW clock acts).iterChain

/-- Witness for claim C3 on a concrete accepted submission and settlement. -/
theorem c3_witness :
    (handleSendStart 1 2 (initialState 0)).iteration = 1 ∧
    (lastMeta (handleSendSettle 3 4 (Except.error ())
        (runW (fun n => n) [UserAction.setInput "a", UserAction.submitStart]).2)).map
      (fun mm => mm.iteration) = some 1 := by
  refine ⟨c3_iteration_monotone.2.1 1 2 (initialState 0) (by decide) (by decide), ?_⟩
  have h := c3_iteration_monotone.2.2.2.2.1 (fun n => n)
    [UserAction.setInput "a", UserAction.submitStart] 3 4 (Except.error ())
    { prompt := "a"
    , styleProfile := { id := "aurora-dream", label := "Aurora Dream" }
    , nextIteration := 1
    , baseImageData := none } (by decide)
  rw [h]
  decide

/-- Claim C4: when the in-flight synthesize call fails, the orchestrator
appends an assistant message with the fixed apology text, no image field, and
meta holding exactly the resolved style id and the attempt iteration with
baseImageUsed omitted; the busy flag is lowered, the already incremented
iteration counter is kept, and every other state field is unchanged. -/
theorem c4_failure_fallback (t3 t4 : Nat) (s : SessionState) (p : PendingGen)
    (h : s.pending = some p) :
    handleSendSettle t3 t4 (Except.error ()) s =
      { s with
          messages := s.messages ++
            [{ id := "assistant-error-" ++ toString t3
             , role := Role.assistant
             , text := apologyText
             , image := none
             , createdAt := t4
             , meta := some
                 { styleId := p.styleProfile.id
                 , iteration := p.nextIteration
                 , baseImageUsed := none } }]
        , isBusy := false
        , pending := none } := by
  rw [handleSendSettle_error t3 t4 () s p h]
  rfl

/-- Witness for claim C4 at a concrete failed generation. -/
theorem c4_witness :
    handleSendSettle 3 4 (Except.error ())
        (runW (fun n => n) [UserAction.setInput "a", UserAction.submitStart]).2 =
      { (runW (fun n => n) [UserAction.setInput "a", UserAction.submitStart]).2 with
          messages := (runW (fun n => n)
              [UserAction.setInput "a", UserAction.submitStart]).2.messages ++
            [{ id := "assistant-error-" ++ toString 3
             , role := Role.assistant
             , text := apologyText
             , image := none
             , createdAt := 4
             , meta := some
                 { styleId := "aurora-dream"
                 , iteration := 1
                 , baseImageUsed := none } }]
        , isBusy := false
        , pending := none } :=
  c4_failure_fallback 3 4 _
    { prompt := "a"
    , styleProfile := { id := "aurora-dream", label := "Aurora Dream" }
    , nextIteration := 1
    , baseImageData := none } (by decide)

/-- Claim C8: resolveProfile is total on all id strings and always returns a
catalog entry: the entry with the requested id when one exists, and the first
catalog entry as the explicit fallback otherwise. -/
theorem c8_resolveProfile_total (id : String) :
    resolveProfile id ∈ profileOptions ∧
    (∀ p ∈ profileOptions, p.id = id → resolveProfile id = p) ∧
    ((∀ p ∈ profileOptions, p.id ≠ id) →
      resolveProfile id = profileOptions.headI) := by
  have huniq : ∀ p ∈ profileOptions, ∀ q ∈ profileOptions, p.id = q.id → p = q := by
    decide
  cases hfind : profileOptions.find? (fun q => q.id == id) with
  | none =>
    have hres : resolveProfile id = profileOptions.headI := by
      unfold resolveProfile
      rw [hfind]
      rfl
    refine ⟨?_, ?_, fun _ => hres⟩
    · rw [hres]
      decide
    · intro p hp hpid
      have := List.find?_eq_none.mp hfind p hp
      rw [hpid] at this
      simp at this
  | some q =>
    have hq : q.id = id := by
      have := List.find?_some hfind
      simpa using this
    have hqmem : q ∈ profileOptions := List.mem_of_find?_eq_some hfind
    have hres : resolveProfile id = q := by
      unfold resolveProfile
      rw [hfind]
      rfl
    refine ⟨hres ▸ hqmem, ?_, ?_⟩
    · intro p hp hpid
      rw [hres]
      exact (huniq p hp q hqmem (by rw [hpid, hq])).symm
    · intro hall
      exact absurd hq (hall q hqmem)

/-- Witness for claim C8: a stale id falls back to the first catalog entry,
and a known id resolves to its own entry. -/
theorem c8_witness :
    resolveProfile "zzz" = profileOptions.headI ∧
    resolveProfile "noir-pulse" = { id := "noir-pulse", label := "Noir Pulse" } :=
  ⟨(c8_resolveProfile_total "zzz").2.2 (by decide),
    (c8_resolveProfile_total "noir-pulse").2.1 _ (by decide) rfl⟩

/-- Claim C10: a submission, at its start and at either settlement, leaves
the active base image and its preview label unchanged; the base image passed
to the compositor is exactly the one active at submission time; and adopting
from a message that carries no image changes nothing. -/
theorem c10_base_image_frame :
    (∀ (t1 t2 : Nat) (s : SessionState),
      (handleSendStart t1 t2 s).baseImageData = s.baseImageData ∧
        (handleSendStart t1 t2 s).previewBaseName = s.previewBaseName) ∧
    (∀ (t3 t4 : Nat) (o : Except Unit String) (s : SessionState),
      (handleSendSettle t3 t4 o s).baseImageData = s.baseImageData ∧
        (handleSendSettle t3 t4 o s).previewBaseName = s.previewBaseName) ∧
    (∀ (t1 t2 : Nat) (s : SessionState), jsTrim s.input ≠ "" → s.isBusy = false →
      ∃ p, (handleSendStart t1 t2 s).pending = some p ∧
        p.baseImageData = s.baseImageData) ∧
    (∀ s : SessionState, handleAdoptBase none s = s) := by
  refine ⟨?_, ?_, ?_, ?_⟩
  · intro t1 t2 s
    unfold handleSendStart
    by_cases hg : jsTrim s.input = "" ∨ s.isBusy
    · rw [if_pos hg]
      exact ⟨rfl, rfl⟩
    · rw [if_neg hg]
      exact ⟨rfl, rfl⟩
  · intro t3 t4 o s
    cases hp : s.pending with
    | none => rw [handleSendSettle_none _ _ _ _ hp]; exact ⟨rfl, rfl⟩
    | some p =>
      cases o with
      | ok img => rw [handleSendSettle_ok _ _ _ _ p hp]; exact ⟨rfl, rfl⟩
      | error e => rw [handleSendSettle_error _ _ _ _ p hp]; exact ⟨rfl, rfl⟩
  · intro t1 t2 s hp hb
    exact ⟨_, handleSendStart_pending t1 t2 s hp hb, rfl⟩
  · intro s
    rfl

/-- Witness for claim C10 on the concrete initial state. -/
theorem c10_witness :
    ∃ p, (handleSendStart 1 2 (initialState 0)).pending = some p ∧
      p.baseImageData = (initialState 0).baseImageData :=
  c10_base_image_frame.2.2.1 1 2 (initialState 0) (by decide) (by decide)

/-- Counterexample for claim C1: from the initial session, with no style ever
explicitly chosen, submitting the prompt a produces an assistant message
whose meta.styleId is the pre-existing default (the first catalog profile),
not the selector result on (prompt plus current style id), and the sticky
style id is not updated to the selector result either. -/
theorem c1_counterexample :
    (lastMeta (runW (fun n => n)
        [UserAction.setInput "a", UserAction.submitStart,
          UserAction.settleGen (Except.ok "img")]).2).map (fun mm => mm.styleId) ≠
      some (pickStyleProfile ("a" ++ (initialState 0).styleId)).id ∧
    (runW (fun n => n)
        [UserAction.setInput "a", UserAction.submitStart,
          UserAction.settleGen (Except.ok "img")]).2.styleId ≠
      (pickStyleProfile ("a" ++ (initialState 0).styleId)).id := by
  constructor
  · decide
  · decide

/-- Claim C1 (amended): the style selector result is only adopted when the
current style id is the empty string, which never holds in a reachable state
because the style id starts as the first catalog id and the selector only
yields catalog ids; hence an accepted submission keeps the sticky style id
unchanged and its assistant message carries that pre-existing id, not the
selector-derived one. -/
theorem c1_sticky_default_style (clock : Nat → Nat) (acts : List UserAction)
    (t1 t2 t3 t4 : Nat) (o : Except Unit String)
    (hp : jsTrim (runW clock acts).2.input ≠ "")
    (hb : (runW clock acts).2.isBusy = false) :
    (runW clock acts).2.styleId ∈ profileOptions.map StyleProfile.id ∧
    (handleSendStart t1 t2 (runW clock acts).2).styleId =
      (runW clock acts).2.styleId ∧
    (lastMeta (handleSendSettle t3 t4 o
        (handleSendStart t1 t2 (runW clock acts).2))).map (fun mm => mm.styleId) =
      some (runW clock acts).2.styleId := by
  have hinv := sessInv_runW clock acts
  have hid := mem_profileIds_ne_empty hinv.styleMem
  refine ⟨hinv.styleMem, handleSendStart_styleId _ _ _ hid, ?_⟩
  rw [round_lastMeta_styleId t1 t2 t3 t4 o _ hp hb hid,
    resolveProfile_id_of_mem hinv.styleMem]

/-- Witness for the amended claim C1 at the initial state. -/
theorem c1_witness :
    (lastMeta (handleSendSettle 3 4 (Except.ok "img")
        (handleSendStart 1 2 (runW (fun n => n) []).2))).map (fun mm => mm.styleId) =
      some (runW (fun n => n) []).2.styleId :=
  (c1_sticky_default_style (fun n => n) [] 1 2 3 4 (Except.ok "img")
    (by decide) (by decide)).2.2

lemma round_stepW2 (clock : Nat → Nat) (w : Nat × SessionState)
    (o : Except Unit String) (hp : jsTrim w.2.input ≠ "") (hb : w.2.isBusy = false) :
    stepW clock (stepW clock w UserAction.submitStart) (UserAction.settleGen o) =
      (w.1 + 4, handleSendSettle (clock (w.1 + 2)) (clock (w.1 + 3)) o
        (handleSendStart (clock w.1) (clock (w.1 + 1)) w.2)) := by
  obtain ⟨tick, s⟩ := w
  exact round_stepW clock tick s o hp hb

/-- Claim C6: for two accepted submissions with no explicit style selection
between them, the assistant messages produced by the two generations carry
the same meta.styleId, whatever the prompts and the outcomes, and that id is
the sticky style id in force at the first submission. -/
theorem c6_style_stickiness (clock : Nat → Nat) (acts0 mid : List UserAction)
    (o1 o2 : Except Unit String)
    (hmid : ∀ a ∈ mid, a.isSelectStyle = false)
    (hp1 : jsTrim (runW clock acts0).2.input ≠ "")
    (hb1 : (runW clock acts0).2.isBusy = false)
    (hp2 : jsTrim (mid.foldl (stepW clock)
        (stepW clock (stepW clock (runW clock acts0) UserAction.submitStart)
          (UserAction.settleGen o1))).2.input ≠ "")
    (hb2 : (mid.foldl (stepW clock)
        (stepW clock (stepW clock (runW clock acts0) UserAction.submitStart)
          (UserAction.settleGen o1))).2.isBusy = false) :
    (lastMeta (stepW clock (stepW clock (runW clock acts0) UserAction.submitStart)
        (UserAction.settleGen o1)).2).map (fun mm => mm.styleId) =
      some (runW clock acts0).2.styleId ∧
    (lastMeta (stepW clock (stepW clock (mid.foldl (stepW clock)
        (stepW clock (stepW clock (runW clock acts0) UserAction.submitStart)
          (UserAction.settleGen o1))) UserAction.submitStart)
            (UserAction.settleGen o2)).2).map (fun mm => mm.styleId) =
      some (runW clock acts0).2.styleId := by
  have hinv := sessInv_runW clock acts0
  have hid0 : (runW clock acts0).2.styleId ≠ "" :=
    mem_profileIds_ne_empty hinv.styleMem
  rw [round_stepW2 clock (runW clock acts0) o1 hp1 hb1] at hp2 hb2 ⊢
  dsimp only at hp2 hb2 ⊢
  have hstyleSettle : (handleSendSettle (clock ((runW clock acts0).1 + 2))
      (clock ((runW clock acts0).1 + 3)) o1
      (handleSendStart (clock (runW clock acts0).1)
        (clock ((runW clock acts0).1 + 1)) (runW clock acts0).2)).styleId =
      (runW clock acts0).2.styleId := by
    rw [handleSendSettle_styleId, handleSendStart_styleId _ _ _ hid0]
  constructor
  · rw [round_lastMeta_styleId _ _ _ _ o1 _ hp1 hb1 hid0,
      resolveProfile_id_of_mem hinv.styleMem]
  · have hfold := foldl_styleId clock mid hmid
      ((runW clock acts0).1 + 4,
        handleSendSettle (clock ((runW clock acts0).1 + 2))
          (clock ((runW clock acts0).1 + 3)) o1
          (handleSendStart (clock (runW clock acts0).1)
            (clock ((runW clock acts0).1 + 1)) (runW clock acts0).2))
      (by dsimp only; rw [hstyleSettle]; exact hid0)
    dsimp only at hfold
    have hid2 : (mid.foldl (stepW clock)
        ((runW clock acts0).1 + 4,
          handleSendSettle (clock ((runW clock acts0).1 + 2))
            (clock ((runW clock acts0).1 + 3)) o1
            (handleSendStart (clock (runW clock acts0).1)
              (clock ((runW clock acts0).1 + 1)) (runW clock acts0).2))).2.styleId ≠ "" := by
      rw [hfold, hstyleSettle]
      exact hid0
    rw [round_stepW2 clock _ o2 hp2 hb2]
    dsimp only
    rw [round_lastMeta_styleId _ _ _ _ o2 _ hp2 hb2 hid2,
      hfold, hstyleSettle, resolveProfile_id_of_mem hinv.styleMem]

/-- Witness for claim C6 on a concrete pair of submissions: success then
failure, with an input edit between them and no style selection. -/
theorem c6_witness :
    (lastMeta (stepW (fun n => n) (stepW (fun n => n)
        ([UserAction.setInput "b"].foldl (stepW (fun n => n))
          (stepW (fun n => n) (stepW (fun n => n) (runW (fun n => n) [])
            UserAction.submitStart) (UserAction.settleGen (Except.ok "i"))))
        UserAction.submitStart) (UserAction.settleGen (Except.error ()))).2).map
      (fun mm => mm.styleId) = some (runW (fun n => n) []).2.styleId :=
  (c6_style_stickiness (fun n => n) [] [UserAction.setInput "b"]
    (Except.ok "i") (Except.error ()) (by decide) (by decide) (by decide)
    (by decide) (by decide)).2

/-- Claim C7: the baseImageUsed flag of a successful generation is determined
solely by the base image passed at submission time: it equals the presence of
the active base image for any realizable base image (encoded images are
non-empty strings); in particular, after adopting the non-empty image of a
prior message, the next successful generation reports baseImageUsed true. -/
theorem c7_base_image_flag :
    (∀ (t1 t2 t3 t4 : Nat) (img : String) (s : SessionState),
      s.baseImageData ≠ some "" → jsTrim s.input ≠ "" → s.isBusy = false →
      (lastMeta (handleSendSettle t3 t4 (Except.ok img)
          (handleSendStart t1 t2 s))).bind (fun mm => mm.baseImageUsed) =
        some s.baseImageData.isSome) ∧
    (∀ (t1 t2 t3 t4 : Nat) (img : String) (m : ChatMessage) (bimg : String)
      (s : SessionState), m.image = some bimg → bimg ≠ "" →
      jsTrim s.input ≠ "" → s.isBusy = false →
      (lastMeta (handleSendSettle t3 t4 (Except.ok img)
          (handleSendStart t1 t2 (handleAdoptBase m.image s)))).bind
        (fun mm => mm.baseImageUsed) = some true) := by
  constructor
  · intro t1 t2 t3 t4 img s hne hp hb
    rw [round_lastMeta_ok t1 t2 t3 t4 img s hp hb]
    show some (jsTruthy s.baseImageData) = some s.baseImageData.isSome
    rw [jsTruthy_eq_isSome hne]
  · intro t1 t2 t3 t4 img m bimg s hm hbimg hp hb
    have hadopt : handleAdoptBase m.image s =
        { s with
            baseImageData := some bimg
          , previewBaseName := some "Canvas anterior" } := by
      rw [hm]
      unfold handleAdoptBase
      rw [if_neg (by simp [jsTruthy, hbimg])]
    rw [hadopt]
    rw [round_lastMeta_ok t1 t2 t3 t4 img
      { s with
          baseImageData := some bimg
        , previewBaseName := some "Canvas anterior" } hp hb]
    show some (jsTruthy (some bimg)) = some true
    simp [jsTruthy, hbimg]

/-- Witness for claim C7: adopting a concrete prior image makes the next
successful generation report baseImageUsed true. -/
theorem c7_witness :
    (lastMeta (handleSendSettle 3 4 (Except.ok "img")
        (handleSendStart 1 2 (handleAdoptBase
          ({ id := "x", role := Role.assistant, text := "t", image := some "px"
           , createdAt := 0, meta := none } : ChatMessage).image
          (initialState 0))))).bind (fun mm => mm.baseImageUsed) = some true :=
  c7_base_image_flag.2 1 2 3 4 "img" _ "px" (initialState 0) rfl (by decide)
    (by decide) (by decide)

/-- Counterexample for claim C9: with a clock that returns the same timestamp
for every call, two accepted submissions produce user messages with identical
ids, so distinctness of message ids fails for that execution. -/
theorem c9_counterexample :
    ¬ ((runW (fun _ => 0)
        [UserAction.setInput "a", UserAction.submitStart,
          UserAction.settleGen (Except.ok "i"), UserAction.setInput "b",
          UserAction.submitStart, UserAction.settleGen (Except.ok "j")]).2.messages.Pairwise
      (fun m1 m2 => m1.id ≠ m2.id)) := by
  decide

/-- Claim C9 (amended): the message log is append-only in every execution,
and when the clock is strictly increasing across calls, as a millisecond
clock is between distinct instants, any two distinct messages carry distinct
ids; for clocks that may repeat a value across submissions the claim fails,
as the counterexample shows. -/
theorem c9_message_ids (clock : Nat → Nat) (hmono : StrictMono clock)
    (acts : List UserAction) :
    (runW clock acts).2.messages.Pairwise (fun m1 m2 => m1.id ≠ m2.id) ∧
    ∀ a : UserAction, ∃ tail : List ChatMessage,
      (runW clock (acts ++ [a])).2.messages =
        (runW clock acts).2.messages ++ tail := by
  refine ⟨(idsInv_runW clock hmono.injective acts).distinct, ?_⟩
  intro a
  have hsplit : runW clock (acts ++ [a]) = stepW clock (runW clock acts) a := by
    unfold runW
    rw [List.foldl_append]
    rfl
  rw [hsplit]
  exact stepW_messages_append clock (runW clock acts) a

/-- Witness for the amended claim C9 on the identity clock. -/
theorem c9_witness :
    (runW (fun n => n)
      [UserAction.setInput "a", UserAction.submitStart,
        UserAction.settleGen (Except.ok "i")]).2.messages.Pairwise
      (fun m1 m2 => m1.id ≠ m2.id) :=
  (c9_message_ids (fun n => n) (fun _ _ h => h)
    [UserAction.setInput "a", UserAction.submitStart,
      UserAction.settleGen (Except.ok "i")]).1
